import Mathlib

/-!
Shallow embedding of the order-processing core of the E-Commerce-Backend
repository (src/src/controllers/order.controller.ts), together with proofs
of the specification claims about it.

Modelling conventions:
* JavaScript numbers carrying currency amounts are modelled as exact
  rationals (`ℚ`); stock quantities and item quantities are `Int`
  (Prisma `decrement` can drive a stock level negative, which `Int` keeps
  observable).
* The Prisma database is a record of lists (`DB`); `findFirst`/`findUnique`
  become `List.find?`, `update` becomes `List.map` guarded by the id.
* `OrderItem` rows are stored as the owning order's `items` list (an
  `OrderItem` belongs to exactly one order and is only created inside the
  creation transaction).
* Fallible handlers return `Except OrderError α`; an `.error` result models
  a thrown `CustomError` before/instead of any state mutation, so an error
  result carries no database and hence no half-applied state.
* `new Date()` / `Date.now()` become an explicit `now : Nat` parameter;
  the generated order id and order number become explicit parameters.
* JavaScript's `x || y` on a possibly-missing field is `Option.getD`
  (for numbers: `undefined` and `0` are both falsy and both map to `0`,
  which `getD 0` reproduces on integers and exact rationals) and
  `jsOrNull` (for strings: `undefined` and `""` are falsy and map to `null`).
-/

/-- Order status enum (Prisma `OrderStatus`, mirrored by
`updateOrderStatusSchema` in order.controller.ts). -/
inductive OrderStatus
  | PENDING
  | CONFIRMED
  | PROCESSING
  | SHIPPED
  | DELIVERED
  | CANCELLED
  | REFUNDED
  deriving DecidableEq, Repr

/-- An address row: only the fields the order controller reads
(`prisma.address.findFirst({ where: { id, userId } })`). -/
structure Address where
  id : String
  userId : String
  deriving DecidableEq, Repr

/-- A product row: the fields `createOrder` reads
(`id`, `name`, `price`, `stockQuantity`, `isActive`). -/
structure Product where
  id : String
  name : String
  price : ℚ
  stockQuantity : Int
  isActive : Bool
  deriving DecidableEq, Repr

/-- A product-variant row: the fields the controllers read. The variant
belongs to a product (`productId`); `isActive` exists on the schema (the
product controller filters on it) but `createOrder` never reads it. -/
structure Variant where
  id : String
  productId : String
  price : ℚ
  stockQuantity : Int
  isActive : Bool
  deriving DecidableEq, Repr

/-- An order-item row (interface `OrderItem` in order.controller.ts, plus
the `orderId` link which we keep implicit by storing the items on the
order). -/
structure OrderItemRec where
  productId : String
  variantId : Option String
  quantity : Int
  unitPrice : ℚ
  totalPrice : ℚ
  deriving DecidableEq, Repr

/-- An order row: the fields written by `createOrder`, `updateOrderStatus`
and `cancelOrder`, with its items embedded. -/
structure Order where
  id : String
  orderNumber : String
  userId : String
  status : OrderStatus
  subtotal : ℚ
  taxAmount : ℚ
  shippingAmount : ℚ
  discountAmount : ℚ
  totalAmount : ℚ
  currency : String
  notes : Option String
  trackingNumber : Option String
  shippedAt : Option Nat
  deliveredAt : Option Nat
  paymentMethod : String
  paymentStatus : String
  items : List OrderItemRec
  deriving DecidableEq, Repr

/-- The persistent state the order controller touches. -/
structure DB where
  addresses : List Address
  products : List Product
  variants : List Variant
  orders : List Order
  deriving DecidableEq, Repr

/-- The distinguishable errors thrown (`throwError`) by the order
controller, one constructor per call site. -/
inductive OrderError
  | validationError
  | shippingAddressNotFound
  | billingAddressNotFound
  | productNotFound (productId : String)
  | productNotAvailable (name : String)
  | insufficientStock (name : String)
  | orderIdRequired
  | orderNotFound
  | cannotCancel
  deriving DecidableEq, Repr

/-- The HTTP status code each `throwError` call site passes. -/
def OrderError.statusCode : OrderError → Nat
  | .validationError => 400
  | .shippingAddressNotFound => 404
  | .billingAddressNotFound => 404
  | .productNotFound _ => 404
  | .productNotAvailable _ => 400
  | .insufficientStock _ => 400
  | .orderIdRequired => 400
  | .orderNotFound => 404
  | .cannotCancel => 400

/-- The message each `throwError` call site passes. -/
def OrderError.message : OrderError → String
  | .validationError => "Validation failed"
  | .shippingAddressNotFound => "Shipping address not found"
  | .billingAddressNotFound => "Billing address not found"
  | .productNotFound pid => "Product with ID " ++ pid ++ " not found"
  | .productNotAvailable name => "Product " ++ name ++ " is not available"
  | .insufficientStock name => "Insufficient stock for " ++ name
  | .orderIdRequired => "Order ID is required"
  | .orderNotFound => "Order not found"
  | .cannotCancel => "Order cannot be cancelled at this stage"

/-- One requested line of a create-order request
(`createOrderSchema.items` element). -/
structure CreateOrderItem where
  productId : String
  variantId : Option String
  quantity : Int
  deriving DecidableEq, Repr

/-- The body of a create-order request (`createOrderSchema`). -/
structure CreateOrderRequest where
  items : List CreateOrderItem
  shippingAddressId : String
  billingAddressId : String
  paymentMethod : String
  notes : Option String
  deriving DecidableEq, Repr

/-- The payment-method enum accepted by `createOrderSchema`. -/
def paymentMethods : List String :=
  ["CREDIT_CARD", "DEBIT_CARD", "PAYPAL", "STRIPE", "BANK_TRANSFER",
   "CASH_ON_DELIVERY"]

/-- Zod validation of one requested item: non-empty product id, positive
integer quantity (`variantId` is an unconstrained optional string). -/
def validRequestItem (it : CreateOrderItem) : Bool :=
  it.productId != "" && decide (0 < it.quantity)

/-- Zod validation of the whole request (`createOrderSchema.parse`):
non-empty item list, each item valid, non-empty address ids, known
payment method. -/
def createOrderSchemaValid (req : CreateOrderRequest) : Bool :=
  !req.items.isEmpty && req.items.all validRequestItem &&
  req.shippingAddressId != "" && req.billingAddressId != "" &&
  paymentMethods.contains req.paymentMethod

/-- `prisma.address.findFirst({ where: { id: addrId, userId } })`. -/
def findAddress (db : DB) (addrId userId : String) : Option Address :=
  db.addresses.find? (fun a => a.id == addrId && a.userId == userId)

/-- `prisma.product.findUnique({ where: { id } })`. -/
def findProduct (db : DB) (productId : String) : Option Product :=
  db.products.find? (fun p => p.id == productId)

/-- The `include: { variants: { where: { id: variantId } } }` relation
fetch: the first variant with the given id belonging to the given
product (`variants?.[0]`). -/
def findVariantOf (db : DB) (productId variantId : String) : Option Variant :=
  db.variants.find? (fun v => v.id == variantId && v.productId == productId)

/-- JavaScript `s || null` on an optional string: `undefined` and the
empty string are falsy and become `null`. -/
def jsOrNull (o : Option String) : Option String :=
  match o with
  | some s => if s = "" then none else some s
  | none => none

/-- The variant row the `include` fetch returns for one requested item
(`(product as any).variants?.[0]`): only looked up when the item carries
a `variantId`. -/
def variantHit (db : DB) (product : Product) (it : CreateOrderItem) : Option Variant :=
  match it.variantId with
  | some vid => findVariantOf db product.id vid
  | none => none

/-- `const availableStock = item.variantId ?
(product as any).variants?.[0]?.stockQuantity || 0 : product.stockQuantity`.
A missing variant therefore counts as stock `0`. -/
def availableStockFor (db : DB) (product : Product) (it : CreateOrderItem) : Int :=
  match it.variantId with
  | some _ => ((variantHit db product it).map (fun v => v.stockQuantity)).getD 0
  | none => product.stockQuantity

/-- `const unitPrice = item.variantId ?
Number((product as any).variants?.[0]?.price || 0) : Number(product.price)`. -/
def unitPriceFor (db : DB) (product : Product) (it : CreateOrderItem) : ℚ :=
  match it.variantId with
  | some _ => ((variantHit db product it).map (fun v => v.price)).getD 0
  | none => product.price

/-- The per-item validation + pricing body of the `for (const item of
data.items)` loop in `createOrder`: product lookup, product active check
(the variant's `isActive` is never read), stock check, price selection,
line total. -/
def checkItem (db : DB) (it : CreateOrderItem) : Except OrderError OrderItemRec :=
  match findProduct db it.productId with
  | none => .error (.productNotFound it.productId)
  | some product =>
    if !product.isActive then .error (.productNotAvailable product.name)
    else if availableStockFor db product it < it.quantity then
      .error (.insufficientStock product.name)
    else
      .ok { productId := it.productId
            variantId := it.variantId
            quantity := it.quantity
            unitPrice := unitPriceFor db product it
            totalPrice := unitPriceFor db product it * (it.quantity : ℚ) }

/-- The whole validation loop of `createOrder`: items are checked in list
order and the first failure aborts (nothing after it is examined). -/
def validateItems (db : DB) : List CreateOrderItem → Except OrderError (List OrderItemRec)
  | [] => .ok []
  | it :: rest =>
    match checkItem db it with
    | .error e => .error e
    | .ok rec =>
      match validateItems db rest with
      | .error e => .error e
      | .ok recs => .ok (rec :: recs)

/-- The running `subtotal += itemTotal` accumulation. -/
def subtotalOf (items : List OrderItemRec) : ℚ :=
  items.foldl (fun s it => s + it.totalPrice) 0

/-- One stock decrement of the creation transaction: Prisma
`update({ data: { stockQuantity: { decrement: quantity } } })` on the
variant if the item has one, else on the product. The decrement is
unconditional — Prisma subtracts whatever the current value is. -/
def decrementStock (db : DB) (it : OrderItemRec) : DB :=
  match it.variantId with
  | some vid =>
    { db with variants := db.variants.map (fun v =>
        if v.id == vid then { v with stockQuantity := v.stockQuantity - it.quantity } else v) }
  | none =>
    { db with products := db.products.map (fun p =>
        if p.id == it.productId then { p with stockQuantity := p.stockQuantity - it.quantity } else p) }

/-- All stock decrements of the creation transaction. -/
def applyDecrements (db : DB) (items : List OrderItemRec) : DB :=
  items.foldl decrementStock db

/-- One stock increment of the cancellation transaction (the exact inverse
shape: `increment: quantity`). -/
def incrementStock (db : DB) (it : OrderItemRec) : DB :=
  match it.variantId with
  | some vid =>
    { db with variants := db.variants.map (fun v =>
        if v.id == vid then { v with stockQuantity := v.stockQuantity + it.quantity } else v) }
  | none =>
    { db with products := db.products.map (fun p =>
        if p.id == it.productId then { p with stockQuantity := p.stockQuantity + it.quantity } else p) }

/-- All stock increments of the cancellation transaction. -/
def applyIncrements (db : DB) (items : List OrderItemRec) : DB :=
  items.foldl incrementStock db

/-- The order row `tx.order.create` writes, together with the pricing
computed just before the transaction:
`taxAmount = subtotal * 0.1`, `shippingAmount = subtotal > 100 ? 0 : 10`,
`totalAmount = subtotal + taxAmount + shippingAmount`,
`discountAmount: 0`, `status: PENDING`, `currency: USD`,
`notes: data.notes || null`, its item rows attached. -/
def mkNewOrder (userId : String) (req : CreateOrderRequest)
    (orderId orderNumber : String) (orderItems : List OrderItemRec) : Order :=
  let subtotal := subtotalOf orderItems
  let taxAmount := subtotal * (1 / 10 : ℚ)
  let shippingAmount : ℚ := if subtotal > 100 then 0 else 10
  let totalAmount := subtotal + taxAmount + shippingAmount
  { id := orderId
    orderNumber := orderNumber
    userId := userId
    status := .PENDING
    subtotal := subtotal
    taxAmount := taxAmount
    shippingAmount := shippingAmount
    discountAmount := 0
    totalAmount := totalAmount
    currency := "USD"
    notes := jsOrNull req.notes
    trackingNumber := none
    shippedAt := none
    deliveredAt := none
    paymentMethod := req.paymentMethod
    paymentStatus := "PENDING"
    items := orderItems }

/-- `OrderController.createOrder`. The generated order id and order
number (`Date.now()`-derived in the source) are passed in explicitly.
On success the returned `DB` is the committed transaction: the new order
row (with its item rows) appended and every line item's stock
decremented. Every error is thrown before any mutation, so an `.error`
result is the unchanged database. -/
def createOrder (db : DB) (userId : String) (req : CreateOrderRequest)
    (orderId orderNumber : String) : Except OrderError (DB × Order) :=
  if !createOrderSchemaValid req then .error .validationError
  else
    match findAddress db req.shippingAddressId userId with
    | none => .error .shippingAddressNotFound
    | some _ =>
      match findAddress db req.billingAddressId userId with
      | none => .error .billingAddressNotFound
      | some _ =>
        match validateItems db req.items with
        | .error e => .error e
        | .ok orderItems =>
          let newOrder := mkNewOrder userId req orderId orderNumber orderItems
          let db1 : DB := { db with orders := db.orders ++ [newOrder] }
          .ok (applyDecrements db1 orderItems, newOrder)

/-- The stock level of the product with the given id, if it exists. -/
def stockOfProduct (db : DB) (productId : String) : Option Int :=
  (db.products.find? (fun p => p.id == productId)).map (fun p => p.stockQuantity)

/-- The stock level of the variant with the given id, if it exists. -/
def stockOfVariant (db : DB) (variantId : String) : Option Int :=
  (db.variants.find? (fun v => v.id == variantId)).map (fun v => v.stockQuantity)

/-- The stored order with the given id, if it exists
(`prisma.order.findUnique({ where: { id } })`). -/
def findOrder (db : DB) (orderId : String) : Option Order :=
  db.orders.find? (fun o => o.id == orderId)

/-- `prisma.order.findFirst({ where: { id, userId } })`: the user-scoped
order lookup shared by `getOrder`, `getOrderStatus` and `cancelOrder`. -/
def findOrderForUser (db : DB) (orderId userId : String) : Option Order :=
  db.orders.find? (fun o => o.id == orderId && o.userId == userId)

/-- Store an updated order row in place
(`prisma.order.update({ where: { id } })`). -/
def storeOrder (db : DB) (orderId : String) (updated : Order) : DB :=
  { db with orders := db.orders.map (fun o => if o.id == orderId then updated else o) }

/-- The body of an update-status request (`updateOrderStatusSchema`):
a status from the enum plus optional tracking number and notes. -/
structure UpdateOrderStatusRequest where
  status : OrderStatus
  trackingNumber : Option String
  notes : Option String
  deriving DecidableEq, Repr

/-- `OrderController.updateOrderStatus` (admin-only route). The route
parameter `id` is optional (`req.params`), and `if (!id)` rejects a
missing or empty id; `now` stands for `new Date()`. The written row sets
the requested status unconditionally, overwrites tracking number and
notes with `data.x || null`, and sets `shippedAt`/`deliveredAt` to `now`
exactly when the requested status is `SHIPPED`/`DELIVERED`, else keeps
the stored value. -/
def updateOrderStatus (db : DB) (orderId : Option String)
    (req : UpdateOrderStatusRequest) (now : Nat) : Except OrderError (DB × Order) :=
  match orderId with
  | none => .error .orderIdRequired
  | some oid =>
    if oid = "" then .error .orderIdRequired
    else
      match findOrder db oid with
      | none => .error .orderNotFound
      | some order =>
        let updated : Order :=
          { order with
            status := req.status
            trackingNumber := jsOrNull req.trackingNumber
            notes := jsOrNull req.notes
            shippedAt := if req.status = .SHIPPED then some now else order.shippedAt
            deliveredAt := if req.status = .DELIVERED then some now else order.deliveredAt }
        .ok (storeOrder db oid updated, updated)

/-- `OrderController.cancelOrder`. User-scoped lookup; only `PENDING` or
`CONFIRMED` orders may be cancelled; on success the transaction sets the
status to `CANCELLED` and increments the stock of each item's variant if
present, else its product, by the item's quantity. An `.error` result
carries no database: nothing was mutated. -/
def cancelOrder (db : DB) (userId : String) (orderId : Option String) :
    Except OrderError DB :=
  match orderId with
  | none => .error .orderIdRequired
  | some oid =>
    if oid = "" then .error .orderIdRequired
    else
      match findOrderForUser db oid userId with
      | none => .error .orderNotFound
      | some order =>
        if order.status ≠ .PENDING ∧ order.status ≠ .CONFIRMED then
          .error .cannotCancel
        else
          let db1 := storeOrder db oid { order with status := .CANCELLED }
          .ok (applyIncrements db1 order.items)

/-- `OrderController.getOrder`: user-scoped read of one order. -/
def getOrder (db : DB) (userId : String) (orderId : Option String) :
    Except OrderError Order :=
  match orderId with
  | none => .error .orderIdRequired
  | some oid =>
    if oid = "" then .error .orderIdRequired
    else
      match findOrderForUser db oid userId with
      | none => .error .orderNotFound
      | some order => .ok order

/-- The lightweight projection returned by `getOrderStatus` (`select`:
id, orderNumber, status, paymentStatus, trackingNumber, updatedAt; the
`updatedAt` timestamp is not modelled). -/
structure OrderStatusView where
  id : String
  orderNumber : String
  status : OrderStatus
  paymentStatus : String
  trackingNumber : Option String
  deriving DecidableEq, Repr

/-- `OrderController.getOrderStatus`: user-scoped status polling. -/
def getOrderStatus (db : DB) (userId : String) (orderId : Option String) :
    Except OrderError OrderStatusView :=
  match orderId with
  | none => .error .orderIdRequired
  | some oid =>
    if oid = "" then .error .orderIdRequired
    else
      match findOrderForUser db oid userId with
      | none => .error .orderNotFound
      | some order =>
        .ok { id := order.id
              orderNumber := order.orderNumber
              status := order.status
              paymentStatus := order.paymentStatus
              trackingNumber := order.trackingNumber }

/-- Total quantity the given item list carries against the given
product's own stock (items without a variant id, for this product). -/
def prodQty (items : List OrderItemRec) (p : String) : Int :=
  ((items.filter (fun it => decide (it.variantId = none ∧ it.productId = p))).map
    (fun it => it.quantity)).sum

/-- Total quantity the given item list carries against the given
variant's stock. -/
def varQty (items : List OrderItemRec) (v : String) : Int :=
  ((items.filter (fun it => decide (it.variantId = some v))).map
    (fun it => it.quantity)).sum

/-- Project an `Except` onto its error, for stating results concretely. -/
def errOf : Except OrderError α → Option OrderError
  | .error e => some e
  | .ok _ => none

/-- Project an `Except` onto its success value. -/
def okOf : Except OrderError α → Option α
  | .error _ => none
  | .ok a => some a

/-! Concrete fixture state used by witnesses and counterexamples. -/

/-- A pending order owned by user `U1` holding two units of product `P1`,
as `createOrder` would have written it (subtotal 10, tax 1, shipping 10). -/
def pendingOrder : Order :=
  { id := "O2"
    orderNumber := "N2"
    userId := "U1"
    status := .PENDING
    subtotal := 10
    taxAmount := 1
    shippingAmount := 10
    discountAmount := 0
    totalAmount := 21
    currency := "USD"
    notes := none
    trackingNumber := none
    shippedAt := none
    deliveredAt := none
    paymentMethod := "PAYPAL"
    paymentStatus := "PENDING"
    items := [{ productId := "P1", variantId := none, quantity := 2,
                unitPrice := 5, totalPrice := 10 }] }

/-- A shipped order owned by user `U2` (shipped at time 5, with a stored
tracking number and notes). -/
def shippedOrder : Order :=
  { id := "O1"
    orderNumber := "N1"
    userId := "U2"
    status := .SHIPPED
    subtotal := 50
    taxAmount := 5
    shippingAmount := 10
    discountAmount := 0
    totalAmount := 65
    currency := "USD"
    notes := some "fragile"
    trackingNumber := some "TRK"
    shippedAt := some 5
    deliveredAt := none
    paymentMethod := "PAYPAL"
    paymentStatus := "PENDING"
    items := [] }

/-- A delivered order owned by user `U2`. -/
def deliveredOrder : Order :=
  { id := "O3"
    orderNumber := "N3"
    userId := "U2"
    status := .DELIVERED
    subtotal := 50
    taxAmount := 5
    shippingAmount := 10
    discountAmount := 0
    totalAmount := 65
    currency := "USD"
    notes := none
    trackingNumber := none
    shippedAt := some 5
    deliveredAt := some 7
    paymentMethod := "PAYPAL"
    paymentStatus := "PENDING"
    items := [] }

/-- The fixture database: two users with one address each; an active
cheap product `P1`, an active product `P2` with an inactive variant `V1`,
an inactive product `P3`; one shipped, one pending and one delivered
order. -/
def demoDB : DB :=
  { addresses := [{ id := "A1", userId := "U1" }, { id := "A2", userId := "U2" }]
    products :=
      [ { id := "P1", name := "Widget", price := 5, stockQuantity := 5, isActive := true }
      , { id := "P2", name := "Gadget", price := 50, stockQuantity := 10, isActive := true }
      , { id := "P3", name := "Relic", price := 8, stockQuantity := 4, isActive := false } ]
    variants :=
      [ { id := "V1", productId := "P2", price := 60, stockQuantity := 7, isActive := false } ]
    orders := [shippedOrder, pendingOrder, deliveredOrder] }

/-- A request whose two lines target the same product `P1` (stock 5) with
quantity 3 each: each line passes validation against the unchanged
snapshot, but the two unconditional decrements drive the stock to −1. -/
def dupItemsReq : CreateOrderRequest :=
  { items := [{ productId := "P1", variantId := none, quantity := 3 },
              { productId := "P1", variantId := none, quantity := 3 }]
    shippingAddressId := "A1"
    billingAddressId := "A1"
    paymentMethod := "PAYPAL"
    notes := none }

/-- A plain one-line request for product `P2` (price 50): subtotal 50. -/
def oneItemReq : CreateOrderRequest :=
  { items := [{ productId := "P2", variantId := none, quantity := 1 }]
    shippingAddressId := "A1"
    billingAddressId := "A1"
    paymentMethod := "PAYPAL"
    notes := none }

/-- A request whose line names a variant id that does not exist under
product `P2`. -/
def missingVariantReq : CreateOrderRequest :=
  { items := [{ productId := "P2", variantId := some "V9", quantity := 1 }]
    shippingAddressId := "A1"
    billingAddressId := "A1"
    paymentMethod := "PAYPAL"
    notes := none }

/-- A request whose line names the inactive variant `V1` (stock 7) of the
active product `P2`. -/
def inactiveVariantReq : CreateOrderRequest :=
  { items := [{ productId := "P2", variantId := some "V1", quantity := 2 }]
    shippingAddressId := "A1"
    billingAddressId := "A1"
    paymentMethod := "PAYPAL"
    notes := none }

/-- A request with an empty item list (rejected by the schema). -/
def emptyItemsReq : CreateOrderRequest :=
  { items := []
    shippingAddressId := "A1"
    billingAddressId := "A1"
    paymentMethod := "PAYPAL"
    notes := none }

/-- A request whose shipping address belongs to another user. -/
def badShippingReq : CreateOrderRequest :=
  { items := [{ productId := "P1", variantId := none, quantity := 1 }]
    shippingAddressId := "A2"
    billingAddressId := "A1"
    paymentMethod := "PAYPAL"
    notes := none }

/-- A request whose billing address belongs to another user. -/
def badBillingReq : CreateOrderRequest :=
  { items := [{ productId := "P1", variantId := none, quantity := 1 }]
    shippingAddressId := "A1"
    billingAddressId := "A2"
    paymentMethod := "PAYPAL"
    notes := none }

/-- A request naming a product id that does not exist. -/
def missingProductReq : CreateOrderRequest :=
  { items := [{ productId := "PX", variantId := none, quantity := 1 }]
    shippingAddressId := "A1"
    billingAddressId := "A1"
    paymentMethod := "PAYPAL"
    notes := none }

/-- A request naming the inactive product `P3`. -/
def inactiveProductReq : CreateOrderRequest :=
  { items := [{ productId := "P3", variantId := none, quantity := 1 }]
    shippingAddressId := "A1"
    billingAddressId := "A1"
    paymentMethod := "PAYPAL"
    notes := none }

/-- A two-line request whose first line is fine and whose second line
asks for more of `P1` (stock 5) than is available. -/
def shortStockReq : CreateOrderRequest :=
  { items := [{ productId := "P2", variantId := none, quantity := 1 },
              { productId := "P1", variantId := none, quantity := 9 }]
    shippingAddressId := "A1"
    billingAddressId := "A1"
    paymentMethod := "PAYPAL"
    notes := none }

/-! General lemmas about the embedded persistence primitives. -/

/-- `find?` commutes with a `map` that preserves the search predicate. -/
theorem find?_map_congr {α β : Type} (f : α → β) (p : α → Bool) (q : β → Bool)
    (h : ∀ a, q (f a) = p a) (l : List α) :
    (l.map f).find? q = (l.find? p).map f := by
  rw [List.find?_map]
  have hqf : q ∘ f = p := funext h
  rw [hqf]

/-- A single creation-time decrement, observed through product stock. -/
theorem stockOfProduct_decrementStock (db : DB) (it : OrderItemRec) (p : String) :
    stockOfProduct (decrementStock db it) p =
      if it.variantId = none ∧ it.productId = p then
        (stockOfProduct db p).map (fun q => q - it.quantity)
      else stockOfProduct db p := by
  cases hv : it.variantId with
  | some vid => simp [decrementStock, stockOfProduct, hv]
  | none =>
    simp only [decrementStock, stockOfProduct, hv]
    rw [find?_map_congr _ (fun x => x.id == p) _ (fun a => by
      by_cases hid : a.id == it.productId <;> simp [hid])]
    cases hfind : db.products.find? (fun x => x.id == p) with
    | none => simp
    | some a =>
      have hap : a.id = p := by simpa using List.find?_some hfind
      by_cases hpp : it.productId = p
      · simp [hpp, hap, true_and]
      · have hne : a.id ≠ it.productId := by rw [hap]; exact fun h => hpp h.symm
        simp [hpp, hne]

/-- A single cancellation-time increment, observed through product stock. -/
theorem stockOfProduct_incrementStock (db : DB) (it : OrderItemRec) (p : String) :
    stockOfProduct (incrementStock db it) p =
      if it.variantId = none ∧ it.productId = p then
        (stockOfProduct db p).map (fun q => q + it.quantity)
      else stockOfProduct db p := by
  cases hv : it.variantId with
  | some vid => simp [incrementStock, stockOfProduct, hv]
  | none =>
    simp only [incrementStock, stockOfProduct, hv]
    rw [find?_map_congr _ (fun x => x.id == p) _ (fun a => by
      by_cases hid : a.id == it.productId <;> simp [hid])]
    cases hfind : db.products.find? (fun x => x.id == p) with
    | none => simp
    | some a =>
      have hap : a.id = p := by simpa using List.find?_some hfind
      by_cases hpp : it.productId = p
      · simp [hpp, hap, true_and]
      · have hne : a.id ≠ it.productId := by rw [hap]; exact fun h => hpp h.symm
        simp [hpp, hne]

/-- A single creation-time decrement, observed through variant stock. -/
theorem stockOfVariant_decrementStock (db : DB) (it : OrderItemRec) (v : String) :
    stockOfVariant (decrementStock db it) v =
      if it.variantId = some v then
        (stockOfVariant db v).map (fun q => q - it.quantity)
      else stockOfVariant db v := by
  cases hv : it.variantId with
  | none => simp [decrementStock, stockOfVariant, hv]
  | some vid =>
    simp only [decrementStock, stockOfVariant, hv]
    rw [find?_map_congr _ (fun x => x.id == v) _ (fun a => by
      by_cases hid : a.id == vid <;> simp [hid])]
    cases hfind : db.variants.find? (fun x => x.id == v) with
    | none => simp
    | some a =>
      have hap : a.id = v := by simpa using List.find?_some hfind
      by_cases hpp : vid = v
      · simp [hpp, hap]
      · have hne : a.id ≠ vid := by rw [hap]; exact fun h => hpp h.symm
        simp [hpp, hne]

/-- A single cancellation-time increment, observed through variant stock. -/
theorem stockOfVariant_incrementStock (db : DB) (it : OrderItemRec) (v : String) :
    stockOfVariant (incrementStock db it) v =
      if it.variantId = some v then
        (stockOfVariant db v).map (fun q => q + it.quantity)
      else stockOfVariant db v := by
  cases hv : it.variantId with
  | none => simp [incrementStock, stockOfVariant, hv]
  | some vid =>
    simp only [incrementStock, stockOfVariant, hv]
    rw [find?_map_congr _ (fun x => x.id == v) _ (fun a => by
      by_cases hid : a.id == vid <;> simp [hid])]
    cases hfind : db.variants.find? (fun x => x.id == v) with
    | none => simp
    | some a =>
      have hap : a.id = v := by simpa using List.find?_some hfind
      by_cases hpp : vid = v
      · simp [hpp, hap]
      · have hne : a.id ≠ vid := by rw [hap]; exact fun h => hpp h.symm
        simp [hpp, hne]

/-- Neither kind of stock increment touches the order table. -/
theorem orders_incrementStock (db : DB) (it : OrderItemRec) :
    (incrementStock db it).orders = db.orders := by
  cases hv : it.variantId <;> simp [incrementStock, hv]

/-- Neither kind of stock decrement touches the order table. -/
theorem orders_decrementStock (db : DB) (it : OrderItemRec) :
    (decrementStock db it).orders = db.orders := by
  cases hv : it.variantId <;> simp [decrementStock, hv]

/-- The cancellation transaction's increments leave orders untouched. -/
theorem orders_applyIncrements (db : DB) (items : List OrderItemRec) :
    (applyIncrements db items).orders = db.orders := by
  induction items generalizing db with
  | nil => rfl
  | cons it rest ih =>
    calc (applyIncrements (incrementStock db it) rest).orders
        = (incrementStock db it).orders := ih _
      _ = db.orders := orders_incrementStock db it

/-- The creation transaction's decrements leave orders untouched. -/
theorem orders_applyDecrements (db : DB) (items : List OrderItemRec) :
    (applyDecrements db items).orders = db.orders := by
  induction items generalizing db with
  | nil => rfl
  | cons it rest ih =>
    calc (applyDecrements (decrementStock db it) rest).orders
        = (decrementStock db it).orders := ih _
      _ = db.orders := orders_decrementStock db it

/-- The quantity the item list books against a product, unrolled once. -/
theorem prodQty_cons (it : OrderItemRec) (rest : List OrderItemRec) (p : String) :
    prodQty (it :: rest) p =
      (if it.variantId = none ∧ it.productId = p then it.quantity else 0) +
        prodQty rest p := by
  by_cases hc : it.variantId = none ∧ it.productId = p
  · simp [prodQty, hc]
  · simp [prodQty, hc]

/-- The quantity the item list books against a variant, unrolled once. -/
theorem varQty_cons (it : OrderItemRec) (rest : List OrderItemRec) (v : String) :
    varQty (it :: rest) v =
      (if it.variantId = some v then it.quantity else 0) + varQty rest v := by
  by_cases hc : it.variantId = some v
  · simp [varQty, hc]
  · simp [varQty, hc]

/-- The cancellation transaction adds, per product, exactly the total
quantity its items book against that product. -/
theorem stockOfProduct_applyIncrements (db : DB) (items : List OrderItemRec) (p : String) :
    stockOfProduct (applyIncrements db items) p =
      (stockOfProduct db p).map (fun q => q + prodQty items p) := by
  induction items generalizing db with
  | nil =>
    cases h : stockOfProduct db p <;> simp [applyIncrements, prodQty, h]
  | cons it rest ih =>
    have step : applyIncrements db (it :: rest) = applyIncrements (incrementStock db it) rest := rfl
    rw [step, ih, stockOfProduct_incrementStock, prodQty_cons]
    by_cases hc : it.variantId = none ∧ it.productId = p
    · rw [if_pos hc, if_pos hc]
      cases h : stockOfProduct db p <;> simp [h]; omega
    · rw [if_neg hc, if_neg hc]
      cases h : stockOfProduct db p <;> simp [h]

/-- The creation transaction subtracts, per product, exactly the total
quantity its items book against that product. -/
theorem stockOfProduct_applyDecrements (db : DB) (items : List OrderItemRec) (p : String) :
    stockOfProduct (applyDecrements db items) p =
      (stockOfProduct db p).map (fun q => q - prodQty items p) := by
  induction items generalizing db with
  | nil =>
    cases h : stockOfProduct db p <;> simp [applyDecrements, prodQty, h]
  | cons it rest ih =>
    have step : applyDecrements db (it :: rest) = applyDecrements (decrementStock db it) rest := rfl
    rw [step, ih, stockOfProduct_decrementStock, prodQty_cons]
    by_cases hc : it.variantId = none ∧ it.productId = p
    · rw [if_pos hc, if_pos hc]
      cases h : stockOfProduct db p <;> simp [h]; omega
    · rw [if_neg hc, if_neg hc]
      cases h : stockOfProduct db p <;> simp [h]

/-- The cancellation transaction adds, per variant, exactly the total
quantity its items book against that variant. -/
theorem stockOfVariant_applyIncrements (db : DB) (items : List OrderItemRec) (v : String) :
    stockOfVariant (applyIncrements db items) v =
      (stockOfVariant db v).map (fun q => q + varQty items v) := by
  induction items generalizing db with
  | nil =>
    cases h : stockOfVariant db v <;> simp [applyIncrements, varQty, h]
  | cons it rest ih =>
    have step : applyIncrements db (it :: rest) = applyIncrements (incrementStock db it) rest := rfl
    rw [step, ih, stockOfVariant_incrementStock, varQty_cons]
    by_cases hc : it.variantId = some v
    · rw [if_pos hc, if_pos hc]
      cases h : stockOfVariant db v <;> simp [h]; omega
    · rw [if_neg hc, if_neg hc]
      cases h : stockOfVariant db v <;> simp [h]

/-- The creation transaction subtracts, per variant, exactly the total
quantity its items book against that variant. -/
theorem stockOfVariant_applyDecrements (db : DB) (items : List OrderItemRec) (v : String) :
    stockOfVariant (applyDecrements db items) v =
      (stockOfVariant db v).map (fun q => q - varQty items v) := by
  induction items generalizing db with
  | nil =>
    cases h : stockOfVariant db v <;> simp [applyDecrements, varQty, h]
  | cons it rest ih =>
    have step : applyDecrements db (it :: rest) = applyDecrements (decrementStock db it) rest := rfl
    rw [step, ih, stockOfVariant_decrementStock, varQty_cons]
    by_cases hc : it.variantId = some v
    · rw [if_pos hc, if_pos hc]
      cases h : stockOfVariant db v <;> simp [h]; omega
    · rw [if_neg hc, if_neg hc]
      cases h : stockOfVariant db v <;> simp [h]

/-- Storing an order row touches no stock or address data. -/
theorem storeOrder_frame (db : DB) (oid : String) (u : Order) :
    (storeOrder db oid u).products = db.products ∧
    (storeOrder db oid u).variants = db.variants ∧
    (storeOrder db oid u).addresses = db.addresses :=
  ⟨rfl, rfl, rfl⟩

/-- After writing an updated row whose id matches the (present) looked-up
id, the lookup returns the updated row: the Prisma `update` replaces
every row with that id. -/
theorem findOrder_storeOrder (db : DB) (oid : String) (u : Order) (hu : u.id = oid)
    (hex : (findOrder db oid).isSome = true) :
    findOrder (storeOrder db oid u) oid = some u := by
  unfold findOrder storeOrder
  rw [find?_map_congr _ (fun o => o.id == oid) _ (fun a => by
    by_cases h : a.id == oid <;> simp [h, hu])]
  unfold findOrder at hex
  cases hfind : db.orders.find? (fun o => o.id == oid) with
  | none => rw [hfind] at hex; simp at hex
  | some a =>
    have ha : a.id = oid := by simpa using List.find?_some hfind
    simp [ha]

/-- The user-scoped order lookup fails exactly when no stored order has
both the requested id and the requesting owner. -/
theorem findOrderForUser_eq_none (db : DB) (oid userId : String) :
    findOrderForUser db oid userId = none ↔
      ∀ o ∈ db.orders, o.id = oid → o.userId ≠ userId := by
  unfold findOrderForUser
  rw [List.find?_eq_none]
  constructor
  · intro h o hm hid huid
    exact h o hm (by simp [hid, huid])
  · intro h o hm hp
    have := h o hm
    simp at hp
    exact this hp.1 hp.2

/-- Successful `checkItem` inversion: the product exists and is active,
the available stock covers the quantity, and the produced row snapshots
the selected unit price and the line total. -/
theorem checkItem_ok {db : DB} {it : CreateOrderItem} {rec : OrderItemRec}
    (h : checkItem db it = .ok rec) :
    ∃ product, findProduct db it.productId = some product ∧
      product.isActive = true ∧
      it.quantity ≤ availableStockFor db product it ∧
      rec = { productId := it.productId
              variantId := it.variantId
              quantity := it.quantity
              unitPrice := unitPriceFor db product it
              totalPrice := unitPriceFor db product it * (it.quantity : ℚ) } := by
  unfold checkItem at h
  cases hp : findProduct db it.productId with
  | none => rw [hp] at h; exact Except.noConfusion h
  | some product =>
    rw [hp] at h
    by_cases ha : product.isActive
    · by_cases hs : availableStockFor db product it < it.quantity
      · simp [ha, hs] at h
      · simp [ha, hs] at h
        exact ⟨product, rfl, ha, not_lt.mp hs, h.symm⟩
    · simp [ha] at h

/-- `checkItem` fails with the product-not-found error when the product
is absent. -/
theorem checkItem_notFound {db : DB} {it : CreateOrderItem}
    (hp : findProduct db it.productId = none) :
    checkItem db it = .error (.productNotFound it.productId) := by
  unfold checkItem; rw [hp]

/-- `checkItem` fails with the not-available error when the product is
inactive. -/
theorem checkItem_inactive {db : DB} {it : CreateOrderItem} {product : Product}
    (hp : findProduct db it.productId = some product)
    (ha : product.isActive = false) :
    checkItem db it = .error (.productNotAvailable product.name) := by
  unfold checkItem; rw [hp]; simp [ha]

/-- `checkItem` fails with the insufficient-stock error naming the
product when the product is active but the available stock is short. -/
theorem checkItem_insufficient {db : DB} {it : CreateOrderItem} {product : Product}
    (hp : findProduct db it.productId = some product)
    (ha : product.isActive = true)
    (hs : availableStockFor db product it < it.quantity) :
    checkItem db it = .error (.insufficientStock product.name) := by
  unfold checkItem; rw [hp]; simp [ha, hs]

/-- Successful validation of a cons: head and tail both pass. -/
theorem validateItems_cons_ok {db : DB} {it : CreateOrderItem}
    {rest : List CreateOrderItem} {recs : List OrderItemRec}
    (h : validateItems db (it :: rest) = .ok recs) :
    ∃ r rs, checkItem db it = .ok r ∧ validateItems db rest = .ok rs ∧
      recs = r :: rs := by
  unfold validateItems at h
  cases hc : checkItem db it with
  | error e => rw [hc] at h; exact Except.noConfusion h
  | ok r =>
    rw [hc] at h
    cases hv : validateItems db rest with
    | error e => rw [hv] at h; exact Except.noConfusion h
    | ok rs =>
      rw [hv] at h
      refine ⟨r, rs, rfl, rfl, ?_⟩
      cases h
      rfl

/-- Every row produced by a successful validation loop comes from a
successful `checkItem` on one of the requested items. -/
theorem validateItems_mem {db : DB} {l : List CreateOrderItem}
    {recs : List OrderItemRec} (h : validateItems db l = .ok recs) :
    ∀ r ∈ recs, ∃ it ∈ l, checkItem db it = .ok r := by
  induction l generalizing recs with
  | nil =>
    unfold validateItems at h
    cases h
    intro r hr
    exact absurd hr (List.not_mem_nil r)
  | cons it rest ih =>
    obtain ⟨r0, rs, hc, hv, hrecs⟩ := validateItems_cons_ok h
    subst hrecs
    intro r hr
    rcases List.mem_cons.mp hr with h1 | h2
    · exact ⟨it, List.mem_cons_self it rest, h1 ▸ hc⟩
    · obtain ⟨j, hj, hcj⟩ := ih hv r h2
      exact ⟨j, List.mem_cons_of_mem it hj, hcj⟩

/-- The validation loop fails fast: if every item before `it` passes and
`it` fails with `e`, the whole loop fails with `e`, whatever comes after
`it`. -/
theorem validateItems_append_error {db : DB} {pre post : List CreateOrderItem}
    {it : CreateOrderItem} {e : OrderError}
    (hok : ∀ j ∈ pre, ∃ r, checkItem db j = .ok r)
    (herr : checkItem db it = .error e) :
    validateItems db (pre ++ it :: post) = .error e := by
  induction pre with
  | nil => simp [validateItems, herr]
  | cons a l ih =>
    obtain ⟨r, hr⟩ := hok a (List.mem_cons_self a l)
    have ih' := ih (fun j hj => hok j (List.mem_cons_of_mem a hj))
    simp only [List.cons_append]
    unfold validateItems
    rw [hr, ih']

/-- Successful `createOrder` inversion: the request passed the schema,
every item validated, the returned order is the priced new row and the
returned database is the committed transaction. -/
theorem createOrder_ok {db : DB} {u : String} {req : CreateOrderRequest}
    {oid onum : String} {db' : DB} {o : Order}
    (h : createOrder db u req oid onum = .ok (db', o)) :
    createOrderSchemaValid req = true ∧
    ∃ items, validateItems db req.items = .ok items ∧
      o = mkNewOrder u req oid onum items ∧
      db' = applyDecrements { db with orders := db.orders ++ [o] } items := by
  unfold createOrder at h
  by_cases hv : createOrderSchemaValid req
  · rw [if_neg (by simp [hv])] at h
    refine ⟨hv, ?_⟩
    cases hs : findAddress db req.shippingAddressId u with
    | none => rw [hs] at h; exact Except.noConfusion h
    | some sa =>
      rw [hs] at h
      cases hb : findAddress db req.billingAddressId u with
      | none => rw [hb] at h; exact Except.noConfusion h
      | some ba =>
        rw [hb] at h
        cases hi : validateItems db req.items with
        | error e => rw [hi] at h; exact Except.noConfusion h
        | ok items =>
          rw [hi] at h
          simp only [Except.ok.injEq, Prod.mk.injEq] at h
          obtain ⟨hdb, ho⟩ := h
          exact ⟨items, rfl, ho.symm, by rw [← hdb, ho]⟩
  · rw [if_pos (by simp [hv])] at h
    exact Except.noConfusion h

/-- `createOrder` rejects a request that fails the schema. -/
theorem createOrder_invalid {db : DB} {u : String} {req : CreateOrderRequest}
    {oid onum : String} (h : createOrderSchemaValid req = false) :
    createOrder db u req oid onum = .error .validationError := by
  unfold createOrder; rw [if_pos (by simp [h])]

/-- `createOrder` rejects a shipping address that does not resolve for
the acting user, before looking at anything else. -/
theorem createOrder_shippingNotFound {db : DB} {u : String} {req : CreateOrderRequest}
    {oid onum : String} (hv : createOrderSchemaValid req = true)
    (hs : findAddress db req.shippingAddressId u = none) :
    createOrder db u req oid onum = .error .shippingAddressNotFound := by
  unfold createOrder; rw [if_neg (by simp [hv]), hs]

/-- `createOrder` rejects a billing address that does not resolve for the
acting user, after the shipping address resolved. -/
theorem createOrder_billingNotFound {db : DB} {u : String} {req : CreateOrderRequest}
    {oid onum : String} {sa : Address} (hv : createOrderSchemaValid req = true)
    (hs : findAddress db req.shippingAddressId u = some sa)
    (hb : findAddress db req.billingAddressId u = none) :
    createOrder db u req oid onum = .error .billingAddressNotFound := by
  unfold createOrder; rw [if_neg (by simp [hv]), hs, hb]

/-- `createOrder` surfaces the first item-validation failure unchanged. -/
theorem createOrder_itemsError {db : DB} {u : String} {req : CreateOrderRequest}
    {oid onum : String} {sa ba : Address} {e : OrderError}
    (hv : createOrderSchemaValid req = true)
    (hs : findAddress db req.shippingAddressId u = some sa)
    (hb : findAddress db req.billingAddressId u = some ba)
    (hi : validateItems db req.items = .error e) :
    createOrder db u req oid onum = .error e := by
  unfold createOrder; rw [if_neg (by simp [hv]), hs, hb, hi]

/-- Successful `updateOrderStatus` inversion: the order existed and the
stored row is the update of it. -/
theorem updateOrderStatus_ok {db : DB} {oid : String}
    {req : UpdateOrderStatusRequest} {now : Nat} {db' : DB} {o' : Order}
    (h : updateOrderStatus db (some oid) req now = .ok (db', o')) :
    oid ≠ "" ∧
    ∃ order, findOrder db oid = some order ∧
      o' = { order with
             status := req.status
             trackingNumber := jsOrNull req.trackingNumber
             notes := jsOrNull req.notes
             shippedAt := if req.status = .SHIPPED then some now else order.shippedAt
             deliveredAt := if req.status = .DELIVERED then some now else order.deliveredAt } ∧
      db' = storeOrder db oid o' := by
  simp only [updateOrderStatus] at h
  by_cases he : oid = ""
  · rw [if_pos he] at h; exact Except.noConfusion h
  · rw [if_neg he] at h
    refine ⟨he, ?_⟩
    cases hf : findOrder db oid with
    | none => rw [hf] at h; exact Except.noConfusion h
    | some order =>
      rw [hf] at h
      simp only [Except.ok.injEq, Prod.mk.injEq] at h
      obtain ⟨hdb, ho⟩ := h
      exact ⟨order, rfl, ho.symm, by rw [← hdb, ho]⟩

/-- `updateOrderStatus` succeeds on every stored order, whatever status
is requested. -/
theorem updateOrderStatus_total {db : DB} {oid : String} {order : Order}
    (req : UpdateOrderStatusRequest) (now : Nat)
    (hne : oid ≠ "") (hf : findOrder db oid = some order) :
    updateOrderStatus db (some oid) req now =
      .ok (storeOrder db oid
            { order with
              status := req.status
              trackingNumber := jsOrNull req.trackingNumber
              notes := jsOrNull req.notes
              shippedAt := if req.status = .SHIPPED then some now else order.shippedAt
              deliveredAt := if req.status = .DELIVERED then some now else order.deliveredAt },
           { order with
             status := req.status
             trackingNumber := jsOrNull req.trackingNumber
             notes := jsOrNull req.notes
             shippedAt := if req.status = .SHIPPED then some now else order.shippedAt
             deliveredAt := if req.status = .DELIVERED then some now else order.deliveredAt }) := by
  simp only [updateOrderStatus]
  rw [if_neg hne, hf]

/-- `cancelOrder` fails with the not-found error when no stored order has
the requested id together with the requesting owner. -/
theorem cancelOrder_notOwned {db : DB} {u oid : String} (hne : oid ≠ "")
    (hf : findOrderForUser db oid u = none) :
    cancelOrder db u (some oid) = .error .orderNotFound := by
  simp only [cancelOrder]
  rw [if_neg hne, hf]

/-- `cancelOrder` fails with the cannot-cancel error on an owned order
whose status is neither `PENDING` nor `CONFIRMED`. -/
theorem cancelOrder_conflict {db : DB} {u oid : String} {order : Order}
    (hne : oid ≠ "") (hf : findOrderForUser db oid u = some order)
    (hst : order.status ≠ .PENDING ∧ order.status ≠ .CONFIRMED) :
    cancelOrder db u (some oid) = .error .cannotCancel := by
  simp [cancelOrder, hne, hf, hst.1, hst.2]

/-- `cancelOrder` on an owned `PENDING` or `CONFIRMED` order commits the
cancellation transaction: status set to `CANCELLED`, then the per-item
stock increments. -/
theorem cancelOrder_success {db : DB} {u oid : String} {order : Order}
    (hne : oid ≠ "") (hf : findOrderForUser db oid u = some order)
    (hst : order.status = .PENDING ∨ order.status = .CONFIRMED) :
    cancelOrder db u (some oid) =
      .ok (applyIncrements (storeOrder db oid { order with status := .CANCELLED })
            order.items) := by
  rcases hst with h | h <;> simp [cancelOrder, hne, hf, h]

/-- `getOrder` fails with the not-found error when no stored order has
the requested id together with the requesting owner. -/
theorem getOrder_notOwned {db : DB} {u oid : String} (hne : oid ≠ "")
    (hf : findOrderForUser db oid u = none) :
    getOrder db u (some oid) = .error .orderNotFound := by
  simp only [getOrder]
  rw [if_neg hne, hf]

/-- `getOrderStatus` fails with the not-found error when no stored order
has the requested id together with the requesting owner. -/
theorem getOrderStatus_notOwned {db : DB} {u oid : String} (hne : oid ≠ "")
    (hf : findOrderForUser db oid u = none) :
    getOrderStatus db u (some oid) = .error .orderNotFound := by
  simp only [getOrderStatus]
  rw [if_neg hne, hf]

/-! The claim theorems. -/

/-- Claim C1. The claim says `createOrder` never leaves a stock level below
zero and fails visibly if a decrement would go negative. The code
validates each line against an unchanged stock snapshot and then applies
*unconditional* Prisma decrements, so a request with two lines for the
same product (stock 5, quantity 3 each) passes validation and commits,
leaving the product's stock at −1: from the fixture state where product
`P1` has stock 5, the duplicate-line request succeeds and the committed
database records stock −1 for `P1`. -/
theorem C1_duplicate_lines_drive_stock_negative :
    stockOfProduct demoDB "P1" = some 5 ∧
    (okOf (createOrder demoDB "U1" dupItemsReq "O9" "N9")).map
        (fun r => stockOfProduct r.1 "P1") = some (some (-1)) := by decide

/-- Claim C2. For every successfully created order, the tax is exactly one
tenth of the subtotal, the shipping amount is zero exactly when the
subtotal strictly exceeds 100 (at subtotal exactly 100 the flat fee of 10
applies), the discount is zero, and the total is subtotal + tax +
shipping. -/
theorem C2_pricing_breakdown {db : DB} {u : String} {req : CreateOrderRequest}
    {oid onum : String} {db' : DB} {o : Order}
    (h : createOrder db u req oid onum = .ok (db', o)) :
    o.taxAmount = o.subtotal * (1 / 10 : ℚ) ∧
    (o.shippingAmount = 0 ↔ o.subtotal > 100) ∧
    (o.subtotal = 100 → o.shippingAmount = 10) ∧
    o.discountAmount = 0 ∧
    o.totalAmount = o.subtotal + o.taxAmount + o.shippingAmount := by
  obtain ⟨-, items, -, ho, -⟩ := createOrder_ok h
  subst ho
  refine ⟨rfl, ?_, ?_, rfl, rfl⟩
  · show (if subtotalOf items > 100 then (0 : ℚ) else 10) = 0 ↔ subtotalOf items > 100
    by_cases hgt : subtotalOf items > 100
    · simp [hgt]
    · rw [if_neg hgt]
      constructor
      · intro h10; exact absurd h10 (by norm_num)
      · intro hc; exact absurd hc hgt
  · intro h100
    have h100' : subtotalOf items = 100 := h100
    show (if subtotalOf items > 100 then (0 : ℚ) else 10) = 10
    rw [h100']
    norm_num

/-- Witness for C2 on the fixture: a one-line order for product `P2`
(price 50). -/
theorem C2_pricing_breakdown_witness :
    ∃ db' o, createOrder demoDB "U1" oneItemReq "O9" "N9" = .ok (db', o) ∧
      (o.taxAmount = o.subtotal * (1 / 10 : ℚ) ∧
       (o.shippingAmount = 0 ↔ o.subtotal > 100) ∧
       (o.subtotal = 100 → o.shippingAmount = 10) ∧
       o.discountAmount = 0 ∧
       o.totalAmount = o.subtotal + o.taxAmount + o.shippingAmount) :=
  ⟨_, _, rfl, @C2_pricing_breakdown demoDB "U1" oneItemReq "O9" "N9" _ _ rfl⟩

/-- Claim C3. On an order owned by the requesting user: if its status is
neither `PENDING` nor `CONFIRMED`, cancellation fails with the
cannot-cancel conflict error ("Order cannot be cancelled at this stage")
and returns no new state; otherwise it succeeds and, in one committed
transaction, the stored status becomes `CANCELLED` and every product and
variant stock level grows by exactly the quantity the order's items book
against it (variant stock for items with a variant id, product stock for
the rest). -/
theorem C3_cancelOrder_spec {db : DB} {u oid : String} {order : Order}
    (hne : oid ≠ "") (hf : findOrderForUser db oid u = some order) :
    (order.status ≠ .PENDING ∧ order.status ≠ .CONFIRMED →
      cancelOrder db u (some oid) = .error .cannotCancel ∧
      OrderError.cannotCancel.message = "Order cannot be cancelled at this stage") ∧
    ((order.status = .PENDING ∨ order.status = .CONFIRMED) →
      ∃ db', cancelOrder db u (some oid) = .ok db' ∧
        (findOrder db' oid).map (fun o => o.status) = some .CANCELLED ∧
        (∀ p, stockOfProduct db' p =
          (stockOfProduct db p).map (fun q => q + prodQty order.items p)) ∧
        (∀ v, stockOfVariant db' v =
          (stockOfVariant db v).map (fun q => q + varQty order.items v))) := by
  have hpred := List.find?_some hf
  have hid : order.id = oid := by simp at hpred; exact hpred.1
  have hmem : order ∈ db.orders := List.mem_of_find?_eq_some hf
  constructor
  · intro hst
    exact ⟨cancelOrder_conflict hne hf hst, rfl⟩
  · intro hst
    refine ⟨_, cancelOrder_success hne hf hst, ?_, ?_, ?_⟩
    · unfold findOrder
      rw [orders_applyIncrements]
      have hsome : (findOrder db oid).isSome = true := by
        unfold findOrder
        rw [List.find?_isSome]
        exact ⟨order, hmem, by simp [hid]⟩
      rw [show (storeOrder db oid { order with status := OrderStatus.CANCELLED }).orders.find?
            (fun o => o.id == oid)
          = findOrder (storeOrder db oid { order with status := OrderStatus.CANCELLED }) oid
          from rfl]
      rw [findOrder_storeOrder db oid { order with status := OrderStatus.CANCELLED } hid hsome]
      rfl
    · intro p
      rw [stockOfProduct_applyIncrements]
      rfl
    · intro v
      rw [stockOfVariant_applyIncrements]
      rfl

/-- Witness for C3 on the fixture: cancelling the shipped order `O1` as
its owner `U2` fails with the conflict error; cancelling the pending
order `O2` as its owner `U1` succeeds, marks it `CANCELLED` and restores
product `P1` by its quantity 2. -/
theorem C3_cancelOrder_spec_witness :
    (cancelOrder demoDB "U2" (some "O1") = .error .cannotCancel ∧
     OrderError.cannotCancel.message = "Order cannot be cancelled at this stage") ∧
    (∃ db', cancelOrder demoDB "U1" (some "O2") = .ok db' ∧
      (findOrder db' "O2").map (fun o => o.status) = some .CANCELLED ∧
      (∀ p, stockOfProduct db' p =
        (stockOfProduct demoDB p).map (fun q => q + prodQty pendingOrder.items p)) ∧
      (∀ v, stockOfVariant db' v =
        (stockOfVariant demoDB v).map (fun q => q + varQty pendingOrder.items v))) :=
  ⟨(@C3_cancelOrder_spec demoDB "U2" "O1" shippedOrder (by decide) (by decide)).1 (by decide),
   (@C3_cancelOrder_spec demoDB "U1" "O2" pendingOrder (by decide) (by decide)).2 (by decide)⟩

/-- Claim C4, counterexample. The claim says updating the status to
`SHIPPED` when the order is already `SHIPPED` does not reset
`shippedAt`. In the code `shippedAt` is rewritten with the current time
whenever the *requested* status is `SHIPPED`, regardless of the stored
status: fixture order `O1` is already `SHIPPED` with `shippedAt = 5`,
yet re-entering `SHIPPED` at time 9 stores `shippedAt = 9`. -/
theorem C4_reentry_resets_shippedAt :
    (findOrder demoDB "O1").map (fun o => (o.status, o.shippedAt)) =
      some (.SHIPPED, some 5) ∧
    (okOf (updateOrderStatus demoDB (some "O1")
        { status := .SHIPPED, trackingNumber := none, notes := none } 9)).map
        (fun r => r.2.shippedAt) = some (some 9) := by decide

/-- Claim C4, amended. `shippedAt` is set to the update time on *every*
update whose requested status is `SHIPPED` — including a re-entry from
`SHIPPED`, which resets it — and is left unchanged by updates to any
other status; `deliveredAt` behaves the same way for `DELIVERED`. -/
theorem C4_timestamps_follow_target_status {db : DB} {oid : String}
    {req : UpdateOrderStatusRequest} {now : Nat} {db' : DB} {o' : Order} {order : Order}
    (h : updateOrderStatus db (some oid) req now = .ok (db', o'))
    (hf : findOrder db oid = some order) :
    (req.status = .SHIPPED → o'.shippedAt = some now) ∧
    (req.status ≠ .SHIPPED → o'.shippedAt = order.shippedAt) ∧
    (req.status = .DELIVERED → o'.deliveredAt = some now) ∧
    (req.status ≠ .DELIVERED → o'.deliveredAt = order.deliveredAt) := by
  obtain ⟨hne, order0, hf0, ho, hdb⟩ := updateOrderStatus_ok h
  rw [hf0] at hf
  injection hf with hf
  subst hf
  subst ho
  exact ⟨fun hs => by simp [hs], fun hs => by simp [hs],
         fun hd => by simp [hd], fun hd => by simp [hd]⟩

/-- Witness for the amended C4 on the fixture: re-entering `SHIPPED` on
the already-shipped order `O1` at time 9 stores `shippedAt = 9` and
leaves `deliveredAt` at its stored value. -/
theorem C4_timestamps_follow_target_status_witness :
    ∃ db' o', updateOrderStatus demoDB (some "O1")
        { status := .SHIPPED, trackingNumber := none, notes := none } 9 = .ok (db', o') ∧
      o'.shippedAt = some 9 ∧ o'.deliveredAt = shippedOrder.deliveredAt := by
  refine ⟨_, _, rfl, ?_, ?_⟩
  · exact (@C4_timestamps_follow_target_status demoDB "O1"
      { status := .SHIPPED, trackingNumber := none, notes := none } 9 _ _ shippedOrder
      rfl (by decide)).1 rfl
  · exact (@C4_timestamps_follow_target_status demoDB "O1"
      { status := .SHIPPED, trackingNumber := none, notes := none } 9 _ _ shippedOrder
      rfl (by decide)).2.2.2 (by decide)

/-- Claim C5. Creating an order (under a fresh order id) and then
cancelling it while still `PENDING`, with no other operation in between,
restores every product and variant stock level to exactly its pre-order
value: the creation-time decrements and the cancellation-time increments
net out. -/
theorem C5_cancel_pending_restores_stock {db : DB} {u : String} {req : CreateOrderRequest}
    {oid onum : String} {db' : DB} {o : Order}
    (hne : oid ≠ "")
    (hfresh : ∀ o0 ∈ db.orders, o0.id ≠ oid)
    (h : createOrder db u req oid onum = .ok (db', o)) :
    ∃ db'', cancelOrder db' u (some oid) = .ok db'' ∧
      (∀ p, stockOfProduct db'' p = stockOfProduct db p) ∧
      (∀ v, stockOfVariant db'' v = stockOfVariant db v) := by
  obtain ⟨-, items, hval, ho, hdb⟩ := createOrder_ok h
  have hid : o.id = oid := by rw [ho]; rfl
  have huser : o.userId = u := by rw [ho]; rfl
  have hstatus : o.status = OrderStatus.PENDING := by rw [ho]; rfl
  have hitems : o.items = items := by rw [ho]; rfl
  have hfind : findOrderForUser db' oid u = some o := by
    unfold findOrderForUser
    rw [hdb, orders_applyDecrements]
    show (db.orders ++ [o]).find? (fun o0 => o0.id == oid && o0.userId == u) = some o
    rw [List.find?_append]
    have h1 : db.orders.find? (fun o0 => o0.id == oid && o0.userId == u) = none := by
      rw [List.find?_eq_none]
      intro x hx
      simp [hfresh x hx]
    rw [h1]
    simp [List.find?, hid, huser]
  have hsucc := cancelOrder_success hne hfind (Or.inl hstatus)
  refine ⟨_, hsucc, ?_, ?_⟩
  · intro p
    rw [stockOfProduct_applyIncrements]
    have hs1 : stockOfProduct (storeOrder db' oid { o with status := OrderStatus.CANCELLED }) p
        = stockOfProduct db' p := rfl
    rw [hs1, hdb, stockOfProduct_applyDecrements]
    have hs2 : stockOfProduct { db with orders := db.orders ++ [o] } p = stockOfProduct db p := rfl
    rw [hs2, hitems]
    cases stockOfProduct db p with
    | none => rfl
    | some q => simp only [Option.map]; congr 1; omega
  · intro v
    rw [stockOfVariant_applyIncrements]
    have hs1 : stockOfVariant (storeOrder db' oid { o with status := OrderStatus.CANCELLED }) v
        = stockOfVariant db' v := rfl
    rw [hs1, hdb, stockOfVariant_applyDecrements]
    have hs2 : stockOfVariant { db with orders := db.orders ++ [o] } v = stockOfVariant db v := rfl
    rw [hs2, hitems]
    cases stockOfVariant db v with
    | none => rfl
    | some q => simp only [Option.map]; congr 1; omega

/-- Witness for C5 on the fixture: a one-line order for `P2` is created
under the fresh id `O9` and immediately cancelled; all stock returns to
the fixture values. -/
theorem C5_cancel_pending_restores_stock_witness :
    ∃ db' o, createOrder demoDB "U1" oneItemReq "O9" "N9" = .ok (db', o) ∧
      ∃ db'', cancelOrder db' "U1" (some "O9") = .ok db'' ∧
        (∀ p, stockOfProduct db'' p = stockOfProduct demoDB p) ∧
        (∀ v, stockOfVariant db'' v = stockOfVariant demoDB v) :=
  ⟨_, _, rfl, @C5_cancel_pending_restores_stock demoDB "U1" oneItemReq "O9" "N9" _ _
    (by decide) (by decide) rfl⟩

/-- Claim C6. `createOrder` checks its preconditions in the stated order
and fails fast with the corresponding distinguishable error: an empty
item list is a schema-validation failure; then the shipping and, after
it, the billing address must resolve for the acting user (not-found
errors); then the items are examined in list order, and for the first
offending item the error is product-not-found, product-not-available, or
insufficient-stock naming the product, whatever comes after it. Every
error is raised before the transaction, so a failing call returns no
database: stock, orders and order items are untouched. -/
theorem C6_createOrder_validation_order (db : DB) (u : String)
    (req : CreateOrderRequest) (oid onum : String) :
    (req.items = [] → createOrder db u req oid onum = .error .validationError) ∧
    (createOrderSchemaValid req = true →
      (findAddress db req.shippingAddressId u = none →
        createOrder db u req oid onum = .error .shippingAddressNotFound) ∧
      (∀ sa, findAddress db req.shippingAddressId u = some sa →
        findAddress db req.billingAddressId u = none →
        createOrder db u req oid onum = .error .billingAddressNotFound) ∧
      (∀ sa ba, findAddress db req.shippingAddressId u = some sa →
        findAddress db req.billingAddressId u = some ba →
        ∀ pre it post, req.items = pre ++ it :: post →
          (∀ j ∈ pre, ∃ r, checkItem db j = .ok r) →
          ((findProduct db it.productId = none →
              createOrder db u req oid onum = .error (.productNotFound it.productId)) ∧
           (∀ product, findProduct db it.productId = some product →
              product.isActive = false →
              createOrder db u req oid onum = .error (.productNotAvailable product.name)) ∧
           (∀ product, findProduct db it.productId = some product →
              product.isActive = true →
              availableStockFor db product it < it.quantity →
              createOrder db u req oid onum = .error (.insufficientStock product.name))))) := by
  refine ⟨?_, fun hv => ⟨?_, ?_, ?_⟩⟩
  · intro hempty
    apply createOrder_invalid
    simp [createOrderSchemaValid, hempty]
  · intro hs
    exact createOrder_shippingNotFound hv hs
  · intro sa hsa hb
    exact createOrder_billingNotFound hv hsa hb
  · intro sa ba hsa hba pre it post hsplit hok
    refine ⟨?_, ?_, ?_⟩
    · intro hp
      exact createOrder_itemsError hv hsa hba
        (by rw [hsplit]; exact validateItems_append_error hok (checkItem_notFound hp))
    · intro product hp ha
      exact createOrder_itemsError hv hsa hba
        (by rw [hsplit]; exact validateItems_append_error hok (checkItem_inactive hp ha))
    · intro product hp ha hs
      exact createOrder_itemsError hv hsa hba
        (by rw [hsplit]; exact validateItems_append_error hok (checkItem_insufficient hp ha hs))

/-- Witness for C6 on the fixture: one concrete request per precondition,
each failing with exactly the stated error (the last one after a first
line that passes). -/
theorem C6_createOrder_validation_order_witness :
    createOrder demoDB "U1" emptyItemsReq "O9" "N9" = .error .validationError ∧
    createOrder demoDB "U1" badShippingReq "O9" "N9" = .error .shippingAddressNotFound ∧
    createOrder demoDB "U1" badBillingReq "O9" "N9" = .error .billingAddressNotFound ∧
    createOrder demoDB "U1" missingProductReq "O9" "N9" = .error (.productNotFound "PX") ∧
    createOrder demoDB "U1" inactiveProductReq "O9" "N9" = .error (.productNotAvailable "Relic") ∧
    createOrder demoDB "U1" shortStockReq "O9" "N9" = .error (.insufficientStock "Widget") := by
  refine ⟨?_, ?_, ?_, ?_, ?_, ?_⟩
  · exact (C6_createOrder_validation_order demoDB "U1" emptyItemsReq "O9" "N9").1 rfl
  · exact ((C6_createOrder_validation_order demoDB "U1" badShippingReq "O9" "N9").2
      (by decide)).1 (by decide)
  · exact ((C6_createOrder_validation_order demoDB "U1" badBillingReq "O9" "N9").2
      (by decide)).2.1 { id := "A1", userId := "U1" } (by decide) (by decide)
  · exact (((C6_createOrder_validation_order demoDB "U1" missingProductReq "O9" "N9").2
      (by decide)).2.2 { id := "A1", userId := "U1" } { id := "A1", userId := "U1" }
      (by decide) (by decide)
      [] { productId := "PX", variantId := none, quantity := 1 } [] rfl
      (by intro j hj; exact absurd hj (List.not_mem_nil j))).1 (by decide)
  · exact (((C6_createOrder_validation_order demoDB "U1" inactiveProductReq "O9" "N9").2
      (by decide)).2.2 { id := "A1", userId := "U1" } { id := "A1", userId := "U1" }
      (by decide) (by decide)
      [] { productId := "P3", variantId := none, quantity := 1 } [] rfl
      (by intro j hj; exact absurd hj (List.not_mem_nil j))).2.1
      { id := "P3", name := "Relic", price := 8, stockQuantity := 4, isActive := false }
      (by decide) (by decide)
  · exact (((C6_createOrder_validation_order demoDB "U1" shortStockReq "O9" "N9").2
      (by decide)).2.2 { id := "A1", userId := "U1" } { id := "A1", userId := "U1" }
      (by decide) (by decide)
      [{ productId := "P2", variantId := none, quantity := 1 }]
      { productId := "P1", variantId := none, quantity := 9 } [] rfl
      (by
        intro j hj
        have hj1 : j = { productId := "P2", variantId := none, quantity := 1 } := by
          simpa using hj
        subst hj1
        exact ⟨_, rfl⟩)).2.2
      { id := "P1", name := "Widget", price := 5, stockQuantity := 5, isActive := true }
      (by decide) (by decide) (by decide)

/-- A schema-valid request only contains items with positive quantity. -/
theorem schemaValid_quantity_pos {req : CreateOrderRequest} {it : CreateOrderItem}
    (hv : createOrderSchemaValid req = true) (hmem : it ∈ req.items) :
    0 < it.quantity := by
  simp only [createOrderSchemaValid, Bool.and_eq_true] at hv
  have hall : req.items.all validRequestItem = true := hv.1.1.1.2
  have hit := List.all_eq_true.mp hall it hmem
  simp only [validRequestItem, Bool.and_eq_true, decide_eq_true_eq] at hit
  exact hit.2

/-- Claim C7, counterexample. The claim says a line whose variant id does
not exist under the product fails with NOT_FOUND, and an inactive
variant fails with INACTIVE. In the code a missing variant merely reads
as stock `0` (`variants?.[0]?.stockQuantity || 0`), so the request fails
with the insufficient-stock error naming the product; and the variant's
`isActive` flag is never read, so a line for the inactive variant `V1`
(stock 7) succeeds outright. -/
theorem C7_variant_errors_counterexample :
    errOf (createOrder demoDB "U1" missingVariantReq "O9" "N9") =
      some (.insufficientStock "Gadget") ∧
    errOf (createOrder demoDB "U1" inactiveVariantReq "O9" "N9") = none := by decide

/-- Claim C7, amended. A line whose variant id resolves to no variant under
the referenced (existing, active) product fails with the
insufficient-stock error naming the product — the missing variant counts
as zero stock; no NOT_FOUND is raised for it and variant activity is
never checked. In every successfully created order, each stored item
satisfies `totalPrice = unitPrice * quantity`, and its unit price is the
code's selection: the variant's price when the line's variant resolves,
else the product's price. -/
theorem C7_variant_pricing_amended (db : DB) (u : String) (req : CreateOrderRequest)
    (oid onum : String) :
    (createOrderSchemaValid req = true →
      ∀ sa ba, findAddress db req.shippingAddressId u = some sa →
        findAddress db req.billingAddressId u = some ba →
        ∀ pre it post vid, req.items = pre ++ it :: post →
          (∀ j ∈ pre, ∃ r, checkItem db j = .ok r) →
          it.variantId = some vid →
          ∀ product, findProduct db it.productId = some product →
            product.isActive = true →
            findVariantOf db product.id vid = none →
            createOrder db u req oid onum = .error (.insufficientStock product.name)) ∧
    (∀ db' o, createOrder db u req oid onum = .ok (db', o) →
      ∀ rec ∈ o.items,
        rec.totalPrice = rec.unitPrice * (rec.quantity : ℚ) ∧
        ∃ product, findProduct db rec.productId = some product ∧
          (rec.variantId = none → rec.unitPrice = product.price) ∧
          (∀ v, rec.variantId = some v →
            ∃ var, findVariantOf db product.id v = some var ∧
              rec.unitPrice = var.price)) := by
  constructor
  · intro hv sa ba hsa hba pre it post vid hsplit hok hvid product hp ha hvar
    have hq : 0 < it.quantity :=
      schemaValid_quantity_pos hv (hsplit ▸ List.mem_append_right pre (List.mem_cons_self it post))
    have hzero : availableStockFor db product it = 0 := by
      simp [availableStockFor, variantHit, hvid, hvar]
    exact createOrder_itemsError hv hsa hba
      (by rw [hsplit]
          exact validateItems_append_error hok
            (checkItem_insufficient hp ha (by rw [hzero]; exact hq)))
  · intro db' o hok rec hmem
    obtain ⟨hv, items, hval, ho, -⟩ := createOrder_ok hok
    have hitems : o.items = items := by rw [ho]; rfl
    rw [hitems] at hmem
    obtain ⟨it, hitmem, hchk⟩ := validateItems_mem hval rec hmem
    obtain ⟨product, hp, ha, hstock, hrec⟩ := checkItem_ok hchk
    subst hrec
    refine ⟨rfl, product, hp, ?_, ?_⟩
    · intro hnone
      have hnone2 : it.variantId = none := hnone
      show unitPriceFor db product it = product.price
      simp [unitPriceFor, hnone2]
    · intro v hv'
      have hv'' : it.variantId = some v := hv'
      have hq : 0 < it.quantity := schemaValid_quantity_pos hv hitmem
      cases hvar : findVariantOf db product.id v with
      | none =>
        exfalso
        have hzero : availableStockFor db product it = 0 := by
          simp [availableStockFor, variantHit, hv'', hvar]
        rw [hzero] at hstock
        omega
      | some var =>
        refine ⟨var, rfl, ?_⟩
        show unitPriceFor db product it = var.price
        simp [unitPriceFor, variantHit, hv'', hvar]

/-- Witness for the amended C7 on the fixture: a line with the
nonexistent variant `V9` under `P2` fails with the insufficient-stock
error naming `Gadget`; a line with the existing (inactive) variant `V1`
succeeds and its stored item carries `V1`'s price 60 with
`totalPrice = unitPrice * quantity`. -/
theorem C7_variant_pricing_amended_witness :
    createOrder demoDB "U1" missingVariantReq "O9" "N9" =
      .error (.insufficientStock "Gadget") ∧
    (∃ db' o, createOrder demoDB "U1" inactiveVariantReq "O9" "N9" = .ok (db', o) ∧
      ∀ rec ∈ o.items,
        rec.totalPrice = rec.unitPrice * (rec.quantity : ℚ) ∧
        ∃ product, findProduct demoDB rec.productId = some product ∧
          (rec.variantId = none → rec.unitPrice = product.price) ∧
          (∀ v, rec.variantId = some v →
            ∃ var, findVariantOf demoDB product.id v = some var ∧
              rec.unitPrice = var.price)) := by
  constructor
  · exact (C7_variant_pricing_amended demoDB "U1" missingVariantReq "O9" "N9").1
      (by decide) { id := "A1", userId := "U1" } { id := "A1", userId := "U1" }
      (by decide) (by decide)
      [] { productId := "P2", variantId := some "V9", quantity := 1 } [] "V9" rfl
      (by intro j hj; exact absurd hj (List.not_mem_nil j)) rfl
      { id := "P2", name := "Gadget", price := 50, stockQuantity := 10, isActive := true }
      (by decide) (by decide) (by decide)
  · exact ⟨_, _, rfl,
      (C7_variant_pricing_amended demoDB "U1" inactiveVariantReq "O9" "N9").2 _ _ rfl⟩

/-- Claim C8. The administrative status update enforces no transition
legality: for every stored order — whatever its current status, terminal
states included — and every requested status from the enum,
`updateOrderStatus` succeeds and persists exactly the requested
status. -/
theorem C8_admin_update_unrestricted {db : DB} {oid : String} {order : Order}
    (req : UpdateOrderStatusRequest) (now : Nat)
    (hne : oid ≠ "") (hf : findOrder db oid = some order) :
    ∃ db' o', updateOrderStatus db (some oid) req now = .ok (db', o') ∧
      o'.status = req.status ∧ findOrder db' oid = some o' := by
  have hid : order.id = oid := by
    simpa using List.find?_some hf
  refine ⟨_, _, updateOrderStatus_total req now hne hf, rfl, ?_⟩
  exact findOrder_storeOrder db oid _ hid (by rw [hf]; rfl)

/-- Witness for C8 on the fixture: the terminal `DELIVERED` order `O3` is
moved back to `PENDING`. -/
theorem C8_admin_update_unrestricted_witness :
    ∃ db' o', updateOrderStatus demoDB (some "O3")
        { status := .PENDING, trackingNumber := none, notes := none } 11 = .ok (db', o') ∧
      o'.status = OrderStatus.PENDING ∧ findOrder db' "O3" = some o' :=
  @C8_admin_update_unrestricted demoDB "O3" deliveredOrder
    { status := .PENDING, trackingNumber := none, notes := none } 11
    (by decide) (by decide)

/-- Claim C9. The user-facing order read, the status polling read and the
cancellation are all scoped to the requesting user: whenever every
stored order carrying the requested id belongs to a different user — in
particular when the order exists but is owned by someone else, and
equally when no such order exists — each of the three operations fails
with the same not-found error, and the failing cancellation returns no
database, so nothing changes. -/
theorem C9_user_scoped_reads {db : DB} {u oid : String} (hne : oid ≠ "")
    (hother : ∀ o ∈ db.orders, o.id = oid → o.userId ≠ u) :
    getOrder db u (some oid) = .error .orderNotFound ∧
    getOrderStatus db u (some oid) = .error .orderNotFound ∧
    cancelOrder db u (some oid) = .error .orderNotFound := by
  have hnone : findOrderForUser db oid u = none :=
    (findOrderForUser_eq_none db oid u).mpr hother
  exact ⟨getOrder_notOwned hne hnone, getOrderStatus_notOwned hne hnone,
         cancelOrder_notOwned hne hnone⟩

/-- Witness for C9 on the fixture: order `O1` exists and is owned by
`U2`; for requesting user `U1` all three operations answer not-found. -/
theorem C9_user_scoped_reads_witness :
    (∃ o ∈ demoDB.orders, o.id = "O1" ∧ o.userId = "U2") ∧
    getOrder demoDB "U1" (some "O1") = .error .orderNotFound ∧
    getOrderStatus demoDB "U1" (some "O1") = .error .orderNotFound ∧
    cancelOrder demoDB "U1" (some "O1") = .error .orderNotFound :=
  ⟨⟨shippedOrder, by decide⟩,
   @C9_user_scoped_reads demoDB "U1" "O1" (by decide) (by decide)⟩

/-- Claim C10. A status update whose request carries no tracking number
(or no notes) stores `null` for that field, erasing any previously
stored value; and only the five fields named in the update data —
status, tracking number, notes, shipped and delivered timestamps — can
change: every other column of the order row, and all addresses, products
and variants, are untouched. -/
theorem C10_update_overwrites_optional_fields {db : DB} {oid : String}
    {req : UpdateOrderStatusRequest} {now : Nat} {db' : DB} {o' : Order} {order : Order}
    (h : updateOrderStatus db (some oid) req now = .ok (db', o'))
    (hf : findOrder db oid = some order) :
    (req.trackingNumber = none → o'.trackingNumber = none) ∧
    (req.notes = none → o'.notes = none) ∧
    o'.status = req.status ∧
    o'.id = order.id ∧ o'.orderNumber = order.orderNumber ∧
    o'.userId = order.userId ∧ o'.subtotal = order.subtotal ∧
    o'.taxAmount = order.taxAmount ∧ o'.shippingAmount = order.shippingAmount ∧
    o'.discountAmount = order.discountAmount ∧ o'.totalAmount = order.totalAmount ∧
    o'.currency = order.currency ∧ o'.paymentMethod = order.paymentMethod ∧
    o'.paymentStatus = order.paymentStatus ∧ o'.items = order.items ∧
    db'.products = db.products ∧ db'.variants = db.variants ∧
    db'.addresses = db.addresses := by
  obtain ⟨hne, order0, hf0, ho, hdb⟩ := updateOrderStatus_ok h
  rw [hf0] at hf
  injection hf with hf
  subst hf
  subst ho
  subst hdb
  exact ⟨fun ht => by simp [jsOrNull, ht], fun hn => by simp [jsOrNull, hn],
         rfl, rfl, rfl, rfl, rfl, rfl, rfl, rfl, rfl, rfl, rfl, rfl, rfl,
         rfl, rfl, rfl⟩

/-- Witness for C10 on the fixture: updating `O1` (stored tracking
number "TRK", stored notes "fragile") to `PROCESSING` with neither field
in the request erases both and leaves the money columns and items
unchanged. -/
theorem C10_update_overwrites_optional_fields_witness :
    shippedOrder.trackingNumber = some "TRK" ∧
    shippedOrder.notes = some "fragile" ∧
    (∃ db' o', updateOrderStatus demoDB (some "O1")
        { status := .PROCESSING, trackingNumber := none, notes := none } 9 = .ok (db', o') ∧
      o'.trackingNumber = none ∧ o'.notes = none ∧
      o'.status = OrderStatus.PROCESSING ∧
      o'.totalAmount = shippedOrder.totalAmount ∧
      o'.items = shippedOrder.items) := by
  refine ⟨rfl, rfl, _, _, rfl, ?_, ?_, ?_, ?_, ?_⟩
  · exact (@C10_update_overwrites_optional_fields demoDB "O1"
      { status := .PROCESSING, trackingNumber := none, notes := none } 9 _ _ shippedOrder
      rfl (by decide)).1 rfl
  · exact (@C10_update_overwrites_optional_fields demoDB "O1"
      { status := .PROCESSING, trackingNumber := none, notes := none } 9 _ _ shippedOrder
      rfl (by decide)).2.1 rfl
  · exact (@C10_update_overwrites_optional_fields demoDB "O1"
      { status := .PROCESSING, trackingNumber := none, notes := none } 9 _ _ shippedOrder
      rfl (by decide)).2.2.1
  · exact (@C10_update_overwrites_optional_fields demoDB "O1"
      { status := .PROCESSING, trackingNumber := none, notes := none } 9 _ _ shippedOrder
      rfl (by decide)).2.2.2.2.2.2.2.2.2.2.1
  · exact (@C10_update_overwrites_optional_fields demoDB "O1"
      { status := .PROCESSING, trackingNumber := none, notes := none } 9 _ _ shippedOrder
      rfl (by decide)).2.2.2.2.2.2.2.2.2.2.2.2.2.2.1
